import Mathlib

/-!
Shallow embedding of `src/health_bot.py`, a terminal-based personal
health-symptom tracker, together with theorems settling the specification
claims about it.  The embedding covers: the two persisted stores (the symptom
reference database `symptoms_db.json` and the append-only log
`health_log.csv`), the bootstrap `initialize_files`, the symptom-logging
dialog `log_symptoms` (including Python's negative list indexing and the
uncaught `int(severity)` conversion), the insight aggregations of
`get_insights`, and one pass of the `run` menu loop.
-/

/-- One record of the symptom reference store `symptoms_db.json`:
fields `remedies`, `severity`, `seek_medical_attention`. -/
structure SymptomInfo where
  remedies : List String
  severity : String
  seek_medical_attention : String
deriving DecidableEq

/-- One row of the health log `health_log.csv`
(columns `date, symptoms, severity, remedies_suggested`); the `severity`
column stores the user's input text verbatim. -/
structure LogEntry where
  date : String
  symptoms : String
  severity : String
  remedies_suggested : String
deriving DecidableEq

/-- The default symptom database written by `initialize_files`
(source lines 27..48).  A JSON object preserves insertion order, so the
store is an ordered association list. -/
def default_db : List (String × SymptomInfo) :=
  [ ("fever",
     { remedies := ["Rest well", "Stay hydrated",
                    "Take paracetamol if temperature is high"],
       severity := "medium",
       seek_medical_attention :=
         "If temperature exceeds 102°F or persists for more than 3 days" }),
    ("headache",
     { remedies := ["Rest in a quiet, dark room", "Stay hydrated",
                    "Try mild pain relievers"],
       severity := "low",
       seek_medical_attention := "If severe and persistent for more than 24 hours" }),
    ("cold",
     { remedies := ["Rest", "Drink warm fluids", "Steam inhalation"],
       severity := "low",
       seek_medical_attention := "If symptoms worsen after 7 days" }),
    ("stomach_ache",
     { remedies := ["Avoid heavy foods", "Try ginger tea", "Stay hydrated"],
       severity := "medium",
       seek_medical_attention := "If severe pain or accompanied by vomiting" }) ]

/-- The two files the bot touches; `none` means the file does not exist. -/
structure FS where
  health_log : Option (List LogEntry)
  symptoms_db : Option (List (String × SymptomInfo))
deriving DecidableEq

/-- Model of `HealthBot.initialize_files` (source lines 19..50): when a file
is missing, create the empty log resp. the default symptom database;
existing files are left untouched. -/
def init_files (fs : FS) : FS :=
  { health_log :=
      match fs.health_log with
      | none => some []
      | some rows => some rows
    symptoms_db :=
      match fs.symptoms_db with
      | none => some default_db
      | some db => some db }

/-- Leading and trailing whitespace removed, as Python `int()` strips its
argument before parsing. -/
def stripWS (cs : List Char) : List Char :=
  ((cs.dropWhile Char.isWhitespace).reverse.dropWhile Char.isWhitespace).reverse

/-- Continuation of a decimal numeral after its first digit: further digits,
possibly grouped by single underscores; an underscore must sit between two
digits (`1_0` is fine, `1_` and `1__0` are not), following Python's grammar
for `int()`. -/
def digitsRest (acc : Nat) : List Char → Option Nat
  | [] => some acc
  | '_' :: rest =>
    match rest with
    | [] => none
    | c :: rest2 =>
      if c.isDigit then digitsRest (acc * 10 + (c.toNat - 48)) rest2 else none
  | c :: rest =>
    if c.isDigit then digitsRest (acc * 10 + (c.toNat - 48)) rest else none

/-- Value of a decimal numeral: at least one digit, then further digits with
optional single-underscore grouping; `none` otherwise. -/
def digitsNum : List Char → Option Nat
  | [] => none
  | c :: rest => if c.isDigit then digitsRest (c.toNat - 48) rest else none

/-- Model of Python `int(s)`: surrounding whitespace is stripped, then an
optional sign followed by a digit numeral with optional underscore grouping
(so `int(" 2") = 2` and `int("0_1") = 1`); `none` models `int` raising
`ValueError`. -/
def pyInt (s : String) : Option Int :=
  match stripWS s.data with
  | '-' :: cs => (digitsNum cs).map (fun n => -(n : Int))
  | '+' :: cs => (digitsNum cs).map (fun n => (n : Int))
  | cs => (digitsNum cs).map (fun n => (n : Int))

/-- Model of Python list indexing `l[i]`: a negative index counts from the
end of the list; an out-of-range index raises `IndexError`, here `none`. -/
def pyGet {α : Type} (l : List α) (i : Int) : Option α :=
  if 0 ≤ i then l[i.toNat]?
  else if i.natAbs ≤ l.length then l[l.length - i.natAbs]?
  else none

/-- A wall-clock instant as `datetime.now()` provides it. -/
structure DateTime where
  year : Nat
  month : Nat
  day : Nat
  hour : Nat
  minute : Nat
  second : Nat
deriving DecidableEq

/-- Model of `datetime.now().strftime('%Y-%m-%d %H:%M:%S')`: every field is
rendered zero-padded to its width (4 digits for `%Y`, 2 for the rest). -/
def strftime_YmdHMS (t : DateTime) : String :=
  ⟨[Nat.digitChar (t.year / 1000 % 10), Nat.digitChar (t.year / 100 % 10),
    Nat.digitChar (t.year / 10 % 10), Nat.digitChar (t.year % 10), '-',
    Nat.digitChar (t.month / 10 % 10), Nat.digitChar (t.month % 10), '-',
    Nat.digitChar (t.day / 10 % 10), Nat.digitChar (t.day % 10), ' ',
    Nat.digitChar (t.hour / 10 % 10), Nat.digitChar (t.hour % 10), ':',
    Nat.digitChar (t.minute / 10 % 10), Nat.digitChar (t.minute % 10), ':',
    Nat.digitChar (t.second / 10 % 10), Nat.digitChar (t.second % 10)]⟩

/-- `s` has the shape `YYYY-MM-DD HH:MM:SS`. -/
def dateFormatOK (s : String) : Bool :=
  match s.data with
  | [y1, y2, y3, y4, c1, m1, m2, c2, d1, d2, c3,
     h1, h2, c4, n1, n2, c5, s1, s2] =>
      y1.isDigit && y2.isDigit && y3.isDigit && y4.isDigit &&
      c1 == '-' && m1.isDigit && m2.isDigit && c2 == '-' &&
      d1.isDigit && d2.isDigit && c3 == ' ' &&
      h1.isDigit && h2.isDigit && c4 == ':' &&
      n1.isDigit && n2.isDigit && c5 == ':' &&
      s1.isDigit && s2.isDigit
  | _ => false

/-- Outcome of one run of `HealthBot.log_symptoms`. -/
inductive LogResult where
  /-- `int(input())` or the list indexing raised (`ValueError` / `IndexError`):
  caught, error message printed, early return; nothing appended. -/
  | invalidChoice
  /-- Entry appended; `warned` records whether the medical-attention advisory
  was printed (`int(severity) >= 4`). -/
  | ok (warned : Bool)
  /-- Entry appended, then the uncaught `int(severity)` on line 99 raised
  `ValueError`, killing the process. -/
  | crashed
deriving DecidableEq

/-- Model of `HealthBot.log_symptoms` (source lines 65..101): parse the
symptom number, index the database's key list with it (Python semantics, so
negative values count from the end), on failure print an error and return;
otherwise read the severity text, append a row to `health_log.csv`, and
finally evaluate the uncaught `int(severity) >= 4` comparison.  Returns the
outcome and the new contents of `health_log.csv`. -/
def log_symptoms (db : List (String × SymptomInfo)) (log : List LogEntry)
    (now choiceText sevText : String) : LogResult × List LogEntry :=
  match pyInt choiceText with
  | none => (.invalidChoice, log)
  | some choice =>
    match pyGet db (choice - 1) with
    | none => (.invalidChoice, log)
    | some (name, info) =>
      let entry : LogEntry :=
        { date := now, symptoms := name, severity := sevText,
          remedies_suggested := String.intercalate "; " info.remedies }
      ((match pyInt sevText with
        | none => .crashed
        | some sev => .ok (decide (4 ≤ sev))),
       log ++ [entry])

/-- The bot's runtime state after `__init__`: the loaded symptom database
and the rows of `health_log.csv`. -/
structure HealthBot where
  symptoms_db : List (String × SymptomInfo)
  health_log : List LogEntry
deriving DecidableEq

/-- The bot state right after `__init__` on a clean machine. -/
def hb0 : HealthBot := { symptoms_db := default_db, health_log := [] }

/-- How one pass of the body of `HealthBot.run`'s `while True` loop ends. -/
inductive Outcome where
  /-- Control returns to the top of the loop: the main menu is shown again. -/
  | looped (showedError : Bool)
  /-- `sys.exit(code)` was called. -/
  | exited (code : Nat)
  /-- An uncaught exception terminated the process abnormally. -/
  | crashed
deriving DecidableEq

/-- Model of one pass of the loop body of `HealthBot.run` (source lines
153..171), given the menu input `c`, the current time, and — used only by
option 1 — the two dialog inputs.  The final `Nat` counts the input prompts
issued after the menu prompt itself (dialog prompts plus the trailing
`Press Enter to continue` prompt, which `sys.exit` and a crash skip). -/
def run_step (bot : HealthBot) (now c choiceText sevText : String) :
    Outcome × HealthBot × Nat :=
  if c = "1" then
    match log_symptoms bot.symptoms_db bot.health_log now choiceText sevText with
    | (.invalidChoice, log2) => (.looped true, { bot with health_log := log2 }, 2)
    | (.ok _, log2) => (.looped false, { bot with health_log := log2 }, 3)
    | (.crashed, log2) => (.crashed, { bot with health_log := log2 }, 2)
  else if c = "2" then (.looped false, bot, 1)
  else if c = "3" then (.looped false, bot, 1)
  else if c = "4" then (.looped false, bot, 1)
  else if c = "5" then (.exited 0, bot, 0)
  else (.looped true, bot, 1)

/-- First occurrences of each string in order of first appearance; `seen`
accumulates the names already emitted. -/
def firstSeenAux (seen : List String) : List String → List String
  | [] => []
  | a :: rest =>
    if a ∈ seen then firstSeenAux seen rest
    else a :: firstSeenAux (a :: seen) rest

/-- Distinct values of a column in order of first appearance (pandas builds
its hash-based indexes in insertion order). -/
def firstSeen (l : List String) : List String := firstSeenAux [] l

/-- Ordering used by `value_counts()`: larger count first.  It is reflexive,
so the insertion sort below is stable and ties stay in first-seen order. -/
def countGE (p q : String × Nat) : Prop := q.2 ≤ p.2

instance : DecidableRel countGE :=
  fun p q => inferInstanceAs (Decidable (q.2 ≤ p.2))

instance : IsTotal (String × Nat) countGE :=
  ⟨fun a b => Nat.le_total b.2 a.2⟩

instance : IsTrans (String × Nat) countGE :=
  ⟨fun _ _ _ h1 h2 => Nat.le_trans h2 h1⟩

/-- Model of `df['symptoms'].value_counts()` (source line 129): the
occurrence count of each distinct symptom, sorted by descending count. -/
def common_symptoms (symptoms : List String) : List (String × Nat) :=
  List.insertionSort countGE
    ((firstSeen symptoms).map (fun s => (s, symptoms.count s)))

/-- The severity values recorded for symptom `s` among the rows
(each row is a `(symptoms, severity)` pair of the data frame). -/
def sevsOf (rows : List (String × ℚ)) (s : String) : List ℚ :=
  (rows.filter (fun r => r.1 == s)).map Prod.snd

/-- Model of `df.groupby('symptoms')['severity'].mean()` (source line 135):
the group keys in sorted order (pandas `groupby` sorts keys by default),
each mapped to the arithmetic mean of its group's severities. -/
def avg_severity (rows : List (String × ℚ)) : List (String × ℚ) :=
  (List.insertionSort (· ≤ ·) (firstSeen (rows.map Prod.fst))).map
    (fun s => (s, (sevsOf rows s).sum / ((sevsOf rows s).length : ℚ)))

/-- Floor of a rational, computably (`Int.fdiv` is flooring division and the
numerator/denominator representation is reduced). -/
def ratFloor (q : ℚ) : ℤ := q.num.fdiv q.den

/-- Round to the nearest integer, ties to even — how Python rounds when
formatting a float. -/
def roundHE (q : ℚ) : ℤ :=
  let f := ratFloor q
  let r := q - (f : ℚ)
  if r < 1 / 2 then f
  else if 1 / 2 < r then f + 1
  else if f % 2 = 0 then f else f + 1

/-- `f"{x:.1f}"` (source line 138): the value rendered to one decimal
place. -/
def render1 (q : ℚ) : ℚ := ((roundHE (10 * q) : ℚ)) / 10

/-- The mean-severity insight as displayed (source lines 134..138): each
group key with its mean severity rendered to one decimal place. -/
def mean_severity_by_symptom (rows : List (String × ℚ)) : List (String × ℚ) :=
  (avg_severity rows).map (fun p => (p.1, render1 p.2))

/-! ### Helper lemmas -/

theorem mem_firstSeenAux (l : List String) :
    ∀ (seen : List String) (s : String),
      s ∈ firstSeenAux seen l ↔ s ∈ l ∧ s ∉ seen := by
  induction l with
  | nil => intro seen s; simp [firstSeenAux]
  | cons a rest ih =>
    intro seen s
    simp only [firstSeenAux]
    by_cases ha : a ∈ seen
    · rw [if_pos ha, ih]
      constructor
      · rintro ⟨h1, h2⟩; exact ⟨List.mem_cons_of_mem a h1, h2⟩
      · rintro ⟨h1, h2⟩
        rcases List.mem_cons.mp h1 with rfl | h1
        · exact absurd ha h2
        · exact ⟨h1, h2⟩
    · rw [if_neg ha]
      simp only [List.mem_cons, ih, not_or]
      constructor
      · rintro (rfl | ⟨h1, h2, h3⟩)
        · exact ⟨Or.inl rfl, ha⟩
        · exact ⟨Or.inr h1, h3⟩
      · rintro ⟨h1 | h1, h2⟩
        · exact Or.inl h1
        · by_cases hsa : s = a
          · exact Or.inl hsa
          · exact Or.inr ⟨h1, hsa, h2⟩

theorem nodup_firstSeenAux (l : List String) :
    ∀ seen : List String, (firstSeenAux seen l).Nodup := by
  induction l with
  | nil => intro seen; simp [firstSeenAux]
  | cons a rest ih =>
    intro seen
    simp only [firstSeenAux]
    by_cases ha : a ∈ seen
    · rw [if_pos ha]; exact ih seen
    · rw [if_neg ha]
      refine List.nodup_cons.mpr ⟨?_, ih (a :: seen)⟩
      intro hmem
      exact ((mem_firstSeenAux rest (a :: seen) a).mp hmem).2
        (List.mem_cons_self a seen)

theorem isDigit_digitChar (k : Nat) (h : k < 10) :
    (Nat.digitChar k).isDigit = true := by
  interval_cases k <;> decide

theorem dateFormatOK_strftime (t : DateTime) :
    dateFormatOK (strftime_YmdHMS t) = true := by
  have h : ∀ k : Nat, (Nat.digitChar (k % 10)).isDigit = true := fun k =>
    isDigit_digitChar (k % 10) (Nat.mod_lt k (by omega))
  simp [dateFormatOK, strftime_YmdHMS, h]

/-- A successful symptom selection always appends exactly one row, built
from the current time, the selected name, the remedy list joined with a
semicolon, and the severity text verbatim — whether or not the severity
text later survives `int(severity)`. -/
theorem log_symptoms_sel (db : List (String × SymptomInfo)) (log : List LogEntry)
    (now ct st : String) (n : Int) (name : String) (info : SymptomInfo)
    (hn : pyInt ct = some n) (hsel : pyGet db (n - 1) = some (name, info)) :
    (log_symptoms db log now ct st).2
      = log ++ [{ date := now, symptoms := name, severity := st,
                  remedies_suggested := String.intercalate "; " info.remedies }]
    ∧ (log_symptoms db log now ct st).1 ≠ LogResult.invalidChoice := by
  cases h : pyInt st <;> simp [log_symptoms, hn, hsel, h]

/-! ### Claim theorems -/

/-- C1: the claim says every user-input error is recovered locally and only
the explicit exit ends the process.  The code contradicts it: after a valid
symptom selection, a non-numeric severity text reaches the uncaught
`int(severity)` comparison on line 99, which raises `ValueError` and kills
the process (after the row was already appended).  This theorem evaluates
the loop body at the failing input (menu `1`, symptom `1`, severity
`abc`). -/
theorem severity_text_crashes :
    run_step hb0 "2024-01-01 12:00:00" "1" "1" "abc"
      = (Outcome.crashed,
         { symptoms_db := default_db,
           health_log :=
             [{ date := "2024-01-01 12:00:00", symptoms := "fever",
                severity := "abc",
                remedies_suggested :=
                  "Rest well; Stay hydrated; Take paracetamol if temperature is high" }] },
         2) := by
  rfl

/-- C3: for every valid symptom selection and any entered severity text,
the appended log's last row carries the selected symptom's name, its remedy
list joined with a semicolon separator, the current timestamp, and the
severity text verbatim; and the timestamp has the shape
`YYYY-MM-DD HH:MM:SS`. -/
theorem append_then_load_last (db : List (String × SymptomInfo))
    (log : List LogEntry) (t : DateTime) (ct st : String) (n : Int)
    (name : String) (info : SymptomInfo)
    (hn : pyInt ct = some n) (hsel : pyGet db (n - 1) = some (name, info)) :
    ((log_symptoms db log (strftime_YmdHMS t) ct st).2).getLast?
      = some { date := strftime_YmdHMS t, symptoms := name, severity := st,
               remedies_suggested := String.intercalate "; " info.remedies }
    ∧ dateFormatOK (strftime_YmdHMS t) = true := by
  have h := log_symptoms_sel db log (strftime_YmdHMS t) ct st n name info hn hsel
  rw [h.1]
  exact ⟨List.getLast?_concat _, dateFormatOK_strftime t⟩

theorem append_then_load_last_witness :
    ((log_symptoms default_db []
        (strftime_YmdHMS ⟨2024, 3, 1, 10, 30, 0⟩) "1" "2").2).getLast?
      = some { date := strftime_YmdHMS ⟨2024, 3, 1, 10, 30, 0⟩,
               symptoms := "fever", severity := "2",
               remedies_suggested := String.intercalate "; "
                 ["Rest well", "Stay hydrated",
                  "Take paracetamol if temperature is high"] }
    ∧ dateFormatOK (strftime_YmdHMS ⟨2024, 3, 1, 10, 30, 0⟩) = true :=
  append_then_load_last default_db [] ⟨2024, 3, 1, 10, 30, 0⟩ "1" "2" 1 "fever"
    { remedies := ["Rest well", "Stay hydrated",
                   "Take paracetamol if temperature is high"],
      severity := "medium",
      seek_medical_attention :=
        "If temperature exceeds 102°F or persists for more than 3 days" }
    (by decide) (by decide)

/-- C4: the logging operation never rewrites history — the prior rows come
back unchanged, in order, as a prefix of the new log, and at most one new
row is added, at the end. -/
theorem append_frame (db : List (String × SymptomInfo)) (log : List LogEntry)
    (now ct st : String) :
    ((log_symptoms db log now ct st).2).take log.length = log
    ∧ ((log_symptoms db log now ct st).2 = log
       ∨ ∃ e : LogEntry, (log_symptoms db log now ct st).2 = log ++ [e]) := by
  cases hn : pyInt ct with
  | none => simp [log_symptoms, hn, List.take_length]
  | some n =>
    cases hsel : pyGet db (n - 1) with
    | none => simp [log_symptoms, hn, hsel, List.take_length]
    | some pr =>
      obtain ⟨name, info⟩ := pr
      have h := log_symptoms_sel db log now ct st n name info hn hsel
      refine ⟨?_, Or.inr ⟨_, h.1⟩⟩
      rw [h.1, List.take_left]

/-- C5: the bootstrap on a clean environment creates an empty log and a
reference store holding exactly the four default symptoms with their
severity classes (and their remedies/advisories, pinned by `default_db`);
running it again changes nothing. -/
theorem bootstrap_spec :
    (init_files ⟨none, none⟩).health_log = some []
    ∧ (init_files ⟨none, none⟩).symptoms_db = some default_db
    ∧ default_db.map (fun p => (p.1, p.2.severity))
        = [("fever", "medium"), ("headache", "low"),
           ("cold", "low"), ("stomach_ache", "medium")]
    ∧ ∀ fs : FS, init_files (init_files fs) = init_files fs := by
  refine ⟨rfl, rfl, rfl, ?_⟩
  intro fs
  obtain ⟨hl, db⟩ := fs
  cases hl <;> cases db <;> rfl

/-- C8: menu option `5` ends the loop with `sys.exit(0)`, issuing no
further prompts and leaving the stores untouched; and `exited 0` — the
graceful terminal state — is reached exactly on input `"5"` (the crash of
C1 is a distinct, abnormal outcome, not the `Terminated` state). -/
theorem exit_option_spec (bot : HealthBot) (now ct st c : String) :
    ((run_step bot now c ct st).1 = Outcome.exited 0 ↔ c = "5")
    ∧ run_step bot now "5" ct st = (Outcome.exited 0, bot, 0) := by
  refine ⟨?_, rfl⟩
  by_cases h1 : c = "1"
  · subst h1
    rcases hr : log_symptoms bot.symptoms_db bot.health_log now ct st with ⟨r, log2⟩
    cases r <;> simp [run_step, hr]
  · by_cases h2 : c = "2"
    · subst h2; simp [run_step]
    · by_cases h3 : c = "3"
      · subst h3; simp [run_step]
      · by_cases h4 : c = "4"
        · subst h4; simp [run_step]
        · by_cases h5 : c = "5"
          · subst h5; simp [run_step]
          · simp [run_step, h1, h2, h3, h4, h5]

theorem exit_option_spec_witness :
    (run_step hb0 "2024-01-01 12:00:00" "5" "1" "2").1 = Outcome.exited 0 :=
  (exit_option_spec hb0 "2024-01-01 12:00:00" "1" "2" "5").1.mpr rfl

/-- C9: any menu input other than `'1'`..`'5'` keeps the loop in the main
menu: an error message is shown, the state is unchanged, the only further
prompt is the `Press Enter` one, and the pass neither crashes nor exits. -/
theorem invalid_menu_spec (bot : HealthBot) (now ct st c : String)
    (h : c ∉ (["1", "2", "3", "4", "5"] : List String)) :
    run_step bot now c ct st = (Outcome.looped true, bot, 1) := by
  simp only [List.mem_cons, List.not_mem_nil, or_false, not_or] at h
  obtain ⟨h1, h2, h3, h4, h5⟩ := h
  simp [run_step, h1, h2, h3, h4, h5]

theorem invalid_menu_spec_witness :
    run_step hb0 "2024-01-01 12:00:00" "x" "1" "2"
      = (Outcome.looped true, hb0, 1) :=
  invalid_menu_spec hb0 "2024-01-01 12:00:00" "1" "2" "x" (by decide)

/-- C10: with the default 4-entry store, symptom number `0` does not abort:
Python evaluates `list(keys)[-1]` and selects the last symptom,
`stomach_ache`, appending a row for it; the negative inputs `-1`, `-2`,
`-3` likewise select `cold`, `headache` and `fever`. -/
theorem negative_index_selects (log : List LogEntry) (now st : String) :
    ((log_symptoms default_db log now "0" st).2
        = log ++ [{ date := now, symptoms := "stomach_ache", severity := st,
                    remedies_suggested :=
                      "Avoid heavy foods; Try ginger tea; Stay hydrated" }]
      ∧ (log_symptoms default_db log now "0" st).1 ≠ LogResult.invalidChoice)
    ∧ (log_symptoms default_db log now "-1" st).2
        = log ++ [{ date := now, symptoms := "cold", severity := st,
                    remedies_suggested :=
                      "Rest; Drink warm fluids; Steam inhalation" }]
    ∧ (log_symptoms default_db log now "-2" st).2
        = log ++ [{ date := now, symptoms := "headache", severity := st,
                    remedies_suggested :=
                      "Rest in a quiet, dark room; Stay hydrated; Try mild pain relievers" }]
    ∧ (log_symptoms default_db log now "-3" st).2
        = log ++ [{ date := now, symptoms := "fever", severity := st,
                    remedies_suggested :=
                      "Rest well; Stay hydrated; Take paracetamol if temperature is high" }] := by
  refine ⟨⟨rfl, ?_⟩, rfl, rfl, rfl⟩
  have hred : (log_symptoms default_db log now "0" st).1
      = (match pyInt st with
         | none => LogResult.crashed
         | some sev => LogResult.ok (decide (4 ≤ sev))) := rfl
  rw [hred]
  cases h : pyInt st <;> simp

theorem negative_index_selects_witness :
    (log_symptoms default_db [] "2024-03-01 10:00:00" "0" "2").2
      = [{ date := "2024-03-01 10:00:00", symptoms := "stomach_ache",
           severity := "2",
           remedies_suggested :=
             "Avoid heavy foods; Try ginger tea; Stay hydrated" }] :=
  (negative_index_selects [] "2024-03-01 10:00:00" "2").1.1

/-- C6: the mean-severity insight pairs every symptom that occurs in the
rows — and only those, so no group is empty and no division by zero ever
happens — with the arithmetic mean of its severities rendered to one
decimal place; on severities `[2, 4]` for `fever` it yields `3.0`. -/
theorem mean_severity_spec :
    (∀ rows : List (String × ℚ), ∀ s ∈ rows.map Prod.fst,
        (sevsOf rows s).length ≠ 0
        ∧ (s, render1 ((sevsOf rows s).sum / ((sevsOf rows s).length : ℚ)))
            ∈ mean_severity_by_symptom rows)
    ∧ (∀ rows : List (String × ℚ), ∀ p ∈ mean_severity_by_symptom rows,
        p.1 ∈ rows.map Prod.fst)
    ∧ mean_severity_by_symptom [("fever", (2 : ℚ)), ("fever", 4)]
        = [("fever", 3)] := by
  refine ⟨?_, ?_, ?_⟩
  · intro rows s hs
    constructor
    · obtain ⟨r, hr, hfst⟩ := List.mem_map.mp hs
      have hf : r ∈ rows.filter (fun x => x.1 == s) :=
        List.mem_filter.mpr ⟨hr, by simp [hfst]⟩
      have hpos : 0 < (sevsOf rows s).length := by
        unfold sevsOf
        rw [List.length_map]
        exact List.length_pos_of_mem hf
      omega
    · have h1 : s ∈ firstSeen (rows.map Prod.fst) :=
        (mem_firstSeenAux _ [] s).mpr ⟨hs, List.not_mem_nil s⟩
      have h2 : s ∈ List.insertionSort (· ≤ ·) (firstSeen (rows.map Prod.fst)) :=
        (List.perm_insertionSort _ _).mem_iff.mpr h1
      have h3 := List.mem_map_of_mem
        (fun x => (x, (sevsOf rows x).sum / ((sevsOf rows x).length : ℚ))) h2
      exact List.mem_map_of_mem (fun p : String × ℚ => (p.1, render1 p.2)) h3
  · intro rows p hp
    obtain ⟨q, hq, rfl⟩ := List.mem_map.mp hp
    obtain ⟨s, hs2, rfl⟩ := List.mem_map.mp hq
    have h5 := (List.perm_insertionSort (α := String) (· ≤ ·) _).mem_iff.mp hs2
    exact ((mem_firstSeenAux _ [] s).mp h5).1
  · show mean_severity_by_symptom [("fever", (2 : ℚ)), ("fever", 4)]
        = [("fever", 3)]
    norm_num [mean_severity_by_symptom, avg_severity, sevsOf, firstSeen,
      firstSeenAux, render1, roundHE, ratFloor, List.insertionSort,
      List.orderedInsert]

theorem mean_severity_spec_witness :
    (sevsOf [("fever", (2 : ℚ)), ("fever", 4)] "fever").length ≠ 0
    ∧ ("fever",
        render1 ((sevsOf [("fever", (2 : ℚ)), ("fever", 4)] "fever").sum
          / ((sevsOf [("fever", (2 : ℚ)), ("fever", 4)] "fever").length : ℚ)))
        ∈ mean_severity_by_symptom [("fever", (2 : ℚ)), ("fever", 4)] :=
  mean_severity_spec.1 [("fever", (2 : ℚ)), ("fever", 4)] "fever" (by decide)

/-- C7: the frequency insight pairs every symptom that occurs in the rows —
and only those, each exactly once — with its occurrence count, sorted by
descending count (the sort is a deterministic stable insertion sort, so
ties stay in first-seen order); both insight functions map the empty
sequence to the empty mapping. -/
theorem frequency_spec :
    (∀ symptoms : List String, ∀ s ∈ symptoms,
        (s, symptoms.count s) ∈ common_symptoms symptoms)
    ∧ (∀ symptoms : List String, ∀ p ∈ common_symptoms symptoms,
        p.1 ∈ symptoms)
    ∧ (∀ symptoms : List String,
        ((common_symptoms symptoms).map Prod.fst).Nodup
        ∧ (common_symptoms symptoms).Pairwise
            (fun a b : String × Nat => b.2 ≤ a.2))
    ∧ common_symptoms [] = []
    ∧ mean_severity_by_symptom [] = [] := by
  refine ⟨?_, ?_, ?_, rfl, rfl⟩
  · intro l s hs
    have h1 : s ∈ firstSeen l :=
      (mem_firstSeenAux l [] s).mpr ⟨hs, List.not_mem_nil s⟩
    have h2 : (s, l.count s) ∈ (firstSeen l).map (fun x => (x, l.count x)) :=
      List.mem_map_of_mem _ h1
    exact (List.perm_insertionSort countGE _).mem_iff.mpr h2
  · intro l p hp
    have hp2 := (List.perm_insertionSort countGE
      ((firstSeen l).map (fun x => (x, l.count x)))).mem_iff.mp hp
    obtain ⟨s, hs, rfl⟩ := List.mem_map.mp hp2
    exact ((mem_firstSeenAux l [] s).mp hs).1
  · intro l
    constructor
    · have hperm := (List.perm_insertionSort countGE
        ((firstSeen l).map (fun x => (x, l.count x)))).map Prod.fst
      have heq : (((firstSeen l).map (fun x => (x, l.count x))).map Prod.fst)
          = firstSeen l := by
        rw [List.map_map]
        exact List.map_id' (firstSeen l)
      refine hperm.nodup_iff.mpr ?_
      rw [heq]
      exact nodup_firstSeenAux l []
    · exact List.Pairwise.imp (fun h => h)
        (List.sorted_insertionSort countGE
          ((firstSeen l).map (fun x => (x, l.count x))))

theorem frequency_spec_witness :
    ("fever", 2) ∈ common_symptoms ["fever", "cold", "fever"] :=
  frequency_spec.1 ["fever", "cold", "fever"] "fever" (by decide)
